import Mathlib

/-!
Verification development for the adaptive traffic-signal backend
(src/backend-reference/improved_app.py).

The development embeds, as executable Lean definitions:
  - the per-direction count smoothing performed by the detection loop
    (line 154 of the source, int (0.7 * old_count + 0.3 * new_count),
    which Python evaluates in IEEE binary64 arithmetic);
  - the shared traffic state (module-level globals of the source);
  - the decision function ai_signal_controller;
  - the API operations set_signal and end_override, and the two phases
    of get_counts (the locked counts copy and the unlocked response
    construction);
  - the detection-cycle step and a reachability relation over the
    shared state.
-/

namespace TrafficControl

/-! ### A model of IEEE binary64 arithmetic on nonnegative dyadic values

The smoothing expression int (0.7 * old_count + 0.3 * new_count) is
evaluated by Python in IEEE binary64 (double) arithmetic.  All values
arising in that expression are nonnegative dyadic rationals, so a double
is modelled as a pair (m, e) denoting the exact rational m / 2 ^ e, and
each arithmetic operation computes the exact result and then rounds the
mantissa to 53 significant bits, round-to-nearest with ties to even,
exactly as IEEE 754 prescribes for normal, non-overflowing results
(every value reached in this program is far inside the normal range). -/

/-- Bit length of a natural number, computed with an explicit fuel
argument (the fuel n is always sufficient since n is at least its own
bit length). -/
def bl : ℕ → ℕ → ℕ
  | 0, _ => 0
  | f + 1, n =>
    if n = 0 then 0
    else if n < 65536 then bl f (n / 2) + 1
    else bl f (n / 65536) + 16

/-- Bit length of a natural number: 0 for 0, otherwise the position of
the highest set bit plus one. -/
def bitlen (n : ℕ) : ℕ := bl n n

/-- A nonnegative dyadic rational m / 2 ^ e, the value domain of the
binary64 model. -/
structure Dy where
  m : ℕ
  e : ℤ
  deriving DecidableEq, Repr

/-- Round the exact dyadic value m / 2 ^ e to 53 significant bits,
round-to-nearest with ties to even: the IEEE binary64 rounding of a
positive real that is neither subnormal nor overflowing. -/
def rnd (m : ℕ) (e : ℤ) : Dy :=
  if bitlen m ≤ 53 then ⟨m, e⟩
  else
    let s := bitlen m - 53
    let q := m / 2 ^ s
    let r := m % 2 ^ s
    let half := 2 ^ (s - 1)
    let q2 := if half < r then q + 1
              else if r < half then q
              else if q % 2 = 0 then q else q + 1
    ⟨q2, e - (s : ℤ)⟩

/-- Binary64 multiplication: exact product, then rounding. -/
def dmul (a b : Dy) : Dy := rnd (a.m * b.m) (a.e + b.e)

/-- Binary64 addition: exact sum (after aligning exponents), then
rounding. -/
def dadd (a b : Dy) : Dy :=
  if a.e ≤ b.e then rnd (a.m * 2 ^ (b.e - a.e).toNat + b.m) b.e
  else rnd (a.m + b.m * 2 ^ (a.e - b.e).toNat) a.e

/-- Conversion of a Python int to a double (exact below 2 ^ 53, rounded
to nearest above). -/
def natToDouble (n : ℕ) : Dy := rnd n 0

/-- The Python int(x) truncation of a nonnegative double toward zero,
which for nonnegative values is the floor. -/
def Dy.truncNat (x : Dy) : ℕ :=
  if 0 ≤ x.e then x.m / 2 ^ x.e.toNat else x.m * 2 ^ (-x.e).toNat

/-- The binary64 value of the Python literal 0.7, namely
3152519739159347 / 2 ^ 52 (the nearest double below 7 / 10). -/
def lit07 : Dy := ⟨3152519739159347, 52⟩

/-- The binary64 value of the Python literal 0.3, namely
5404319552844595 / 2 ^ 54 (the nearest double below 3 / 10). -/
def lit03 : Dy := ⟨5404319552844595, 54⟩

/-- Sanity check that lit07 is within half an ulp of 7 / 10 (the ulp at
0.7 is 2 ^ (-52)), hence is the binary64 rounding of the literal 0.7. -/
theorem lit07_near : 7 / 10 - (1 : ℚ) / 2 ^ 53 < (3152519739159347 : ℚ) / 2 ^ 52 ∧
    (3152519739159347 : ℚ) / 2 ^ 52 < 7 / 10 := by norm_num

/-- Sanity check that lit03 is within half an ulp of 3 / 10 (the ulp at
0.3 is 2 ^ (-54)), hence is the binary64 rounding of the literal 0.3. -/
theorem lit03_near : 3 / 10 - (1 : ℚ) / 2 ^ 55 < (5404319552844595 : ℚ) / 2 ^ 54 ∧
    (5404319552844595 : ℚ) / 2 ^ 54 < 3 / 10 := by norm_num

/-- The count smoothing performed by the detection loop, line 154 of the
source: int (0.7 * old_count + 0.3 * new_count), evaluated in binary64
arithmetic exactly as Python does. -/
def smoothFloat (old_count new_count : ℕ) : ℕ :=
  (dadd (dmul lit07 (natToDouble old_count)) (dmul lit03 (natToDouble new_count))).truncNat

/-- Modelled from the spec: the smoothing contract of section 4.1,
result = floor (0.7 * previous + 0.3 * observed) in exact rational
arithmetic.  Stated for comparison with smoothFloat, the function the
source actually computes. -/
def smoothSpecFloor (previous observed : ℕ) : ℕ := (7 * previous + 3 * observed) / 10

/-! ### The shared traffic state and its operations

The module-level globals of the source (lines 20 to 24): the counts
dictionary with its four fixed keys in insertion order north, south,
east, west; the active signal string; the override flag; and the phase
start timestamp.  The counts dictionary is embedded as an association
list so that key lookups can fail, exactly as a Python dict lookup can
raise KeyError; clock readings are exact rationals standing for the
real-valued readings of time.time(). -/

/-- The shared mutable state of the program: traffic_counts,
current_signal, manual_override and signal_timer (lines 20 to 24). -/
structure TrafficState where
  traffic_counts : List (String × ℕ)
  current_signal : String
  manual_override : Bool
  signal_timer : ℚ
  deriving DecidableEq, Repr

/-- The initial state built at module load: all four counts zero, signal
north, no override; the initial clock reading is taken as time zero. -/
def initTrafficState : TrafficState :=
  ⟨[("north", 0), ("south", 0), ("east", 0), ("west", 0)], "north", false, 0⟩

/-- AI traffic control parameters (lines 28 to 31 of the source). -/
def MAX_GREEN_TIME : ℕ := 30

/-- Minimum green time in seconds (line 29). -/
def MIN_GREEN_TIME : ℕ := 8

/-- High traffic threshold (line 30). -/
def HIGH_TRAFFIC_THRESHOLD : ℕ := 15

/-- Low traffic threshold (line 31). -/
def LOW_TRAFFIC_THRESHOLD : ℕ := 3

/-- The Python expression max (traffic_counts, key = traffic_counts.get)
on line 94: iterate over the keys in dict order and keep the first key
whose value is maximal (Python max keeps the first maximal element, so
later keys replace the current best only on a strictly greater value). -/
def maxTrafficDir : List (String × ℕ) → String
  | [] => ""
  | kv :: rest => (rest.foldl (fun best x => if x.2 > best.2 then x else best) kv).1

/-- The decision function ai_signal_controller (lines 82 to 125).  The
two dict lookups are embedded as association-list lookups, returning
none where Python would raise KeyError; the three rules are the if/elif
chain of lines 101 to 121, and a firing rule commits the new signal and
resets the timer (lines 123 to 125). -/
def ai_signal_controller (now : ℚ) (s : TrafficState) : Option TrafficState :=
  if s.manual_override then some s
  else
    (s.traffic_counts.lookup s.current_signal).bind fun current_count =>
    (s.traffic_counts.lookup (maxTrafficDir s.traffic_counts)).bind fun max_traffic_count =>
    let time_since_change : ℚ := now - s.signal_timer
    let max_traffic_dir := maxTrafficDir s.traffic_counts
    if time_since_change > (MAX_GREEN_TIME : ℚ) then
      some { s with current_signal := max_traffic_dir, signal_timer := now }
    else if time_since_change > (MIN_GREEN_TIME : ℚ) ∧
        current_count < LOW_TRAFFIC_THRESHOLD ∧
        max_traffic_count > HIGH_TRAFFIC_THRESHOLD ∧
        max_traffic_dir ≠ s.current_signal then
      some { s with current_signal := max_traffic_dir, signal_timer := now }
    else if max_traffic_count > HIGH_TRAFFIC_THRESHOLD * 2 ∧
        max_traffic_dir ≠ s.current_signal ∧
        time_since_change > ((MIN_GREEN_TIME / 2 : ℕ) : ℚ) then
      some { s with current_signal := max_traffic_dir, signal_timer := now }
    else some s

/-- The smoothing commit of the detection loop (lines 149 to 154): every
key of traffic_counts is updated in place with the smoothed combination
of its old value and the freshly detected region count. -/
def updateCountsWithSmoothing (region_counts : String → ℕ)
    (counts : List (String × ℕ)) : List (String × ℕ) :=
  counts.map fun kv => (kv.1, smoothFloat kv.2 (region_counts kv.1))

/-- One iteration of the detection loop core (lines 149 to 157): commit
the smoothed counts, then run the signal controller.  A KeyError raised
inside ai_signal_controller would be caught by the try/except of the
loop (lines 176 to 178), leaving the already committed counts in place;
the none branch models that. -/
def detection_cycle (region_counts : String → ℕ) (now : ℚ) (s : TrafficState) : TrafficState :=
  match ai_signal_controller now
      { s with traffic_counts := updateCountsWithSmoothing region_counts s.traffic_counts } with
  | some s2 => s2
  | none => { s with traffic_counts := updateCountsWithSmoothing region_counts s.traffic_counts }

/-- The Python str.lower() of the direction argument, modelled on the
character list (Char.toLower lowercases exactly the ASCII uppercase
letters, which is what str.lower() does on the ASCII strings this API
compares against). -/
def strToLower (x : String) : String := String.mk (x.data.map Char.toLower)

/-- The list literal valid_directions of line 212. -/
def valid_directions : List String := ["north", "south", "east", "west"]

/-- Result of the set_signal endpoint: either the success payload
(lines 227 to 232) or the 400 error payload carrying the list of valid
directions (lines 215 to 218). -/
inductive ApiResult where
  | success (current_signal : String) (manual_override : Bool)
  | badRequest (valid : List String) (status : ℕ)
  deriving DecidableEq, Repr

/-- The set_signal route handler (lines 207 to 232): reject a direction
whose lowercasing is not in valid_directions with a 400 error and no
state change; otherwise store the lowercased direction, raise the
override flag and reset the timer. -/
def set_signal (direction : String) (now : ℚ) (s : TrafficState) : ApiResult × TrafficState :=
  if strToLower direction ∉ valid_directions then
    (ApiResult.badRequest valid_directions 400, s)
  else
    let s2 : TrafficState :=
      { s with current_signal := strToLower direction, manual_override := true, signal_timer := now }
    (ApiResult.success s2.current_signal s2.manual_override, s2)

/-- The end_override route handler (lines 234 to 239): clear the
override flag and touch nothing else. -/
def end_override (s : TrafficState) : TrafficState :=
  { s with manual_override := false }

/-! ### The two phases of get_counts

get_counts (lines 192 to 205) copies the counts dictionary while
holding traffic_counts_lock, but builds its response, reading
current_signal and manual_override, after the with block has released
the lock.  The two phases are therefore embedded separately: other
operations can run between them. -/

/-- The response payload of get_counts (lines 198 to 204). -/
structure CountsResponse where
  counts : List (String × ℕ)
  signal : String
  manual_override : Bool
  timestamp : ℚ
  total_vehicles : ℕ
  deriving DecidableEq, Repr

/-- Phase one of get_counts, executed under the lock (lines 195 to
196): copy the counts dictionary. -/
def get_counts_locked_copy (s : TrafficState) : List (String × ℕ) :=
  s.traffic_counts

/-- Phase two of get_counts, executed after the lock is released
(lines 198 to 204): build the response from the saved counts copy and
the live current_signal and manual_override. -/
def get_counts_response (current_counts : List (String × ℕ)) (s : TrafficState)
    (now : ℚ) : CountsResponse :=
  ⟨current_counts, s.current_signal, s.manual_override, now,
    (current_counts.map Prod.snd).sum⟩

/-- What the snapshot claim promises: the whole of get_counts evaluated
against one single fully applied state. -/
def get_counts_atomic (s : TrafficState) (now : ℚ) : CountsResponse :=
  get_counts_response (get_counts_locked_copy s) s now

/-! ### Reachable states

The shared state is mutated by the detection loop and by the two
override endpoints; every reachable state arises from the initial one
by a sequence of those operations. -/

/-- Reachability of a shared state from the initial state under the
three mutating operations of the program. -/
inductive Reachable : TrafficState → Prop
  | init : Reachable initTrafficState
  | detect (region_counts : String → ℕ) (now : ℚ) (s : TrafficState) :
      Reachable s → Reachable (detection_cycle region_counts now s)
  | manual (direction : String) (now : ℚ) (s : TrafficState) :
      Reachable s → Reachable (set_signal direction now s).2
  | clear (s : TrafficState) :
      Reachable s → Reachable (end_override s)

/-- Modelled from the spec: the first direction in the fixed iteration
order north, south, east, west attaining the maximum smoothed count
(section 4.3 of the spec, first-seen-max tie break), written directly
from the words of the spec for comparison with maxTrafficDir. -/
def specFirstMax (a b c d : ℕ) : String :=
  let mx := max (max a b) (max c d)
  if a = mx then "north" else if b = mx then "south" else if c = mx then "east" else "west"

/-- A traffic state with the four standard keys holding counts a, b, c,
d for north, south, east, west. -/
def mkState (a b c d : ℕ) (sig : String) (ov : Bool) (t : ℚ) : TrafficState :=
  ⟨[("north", a), ("south", b), ("east", c), ("west", d)], sig, ov, t⟩

/-! ### Helper lemmas about lookups and the maximum-traffic direction -/

lemma lookup_quad_north (a b c d : ℕ) :
    List.lookup "north" [("north", a), ("south", b), ("east", c), ("west", d)] = some a := rfl

lemma lookup_quad_south (a b c d : ℕ) :
    List.lookup "south" [("north", a), ("south", b), ("east", c), ("west", d)] = some b := rfl

lemma lookup_quad_east (a b c d : ℕ) :
    List.lookup "east" [("north", a), ("south", b), ("east", c), ("west", d)] = some c := rfl

lemma lookup_quad_west (a b c d : ℕ) :
    List.lookup "west" [("north", a), ("south", b), ("east", c), ("west", d)] = some d := rfl

/-- On the four standard keys the Python max-by-value (first maximal key
wins) agrees with the specification wording: the first direction in the
order north, south, east, west attaining the maximum count. -/
lemma maxTrafficDir_quad (a b c d : ℕ) :
    maxTrafficDir [("north", a), ("south", b), ("east", c), ("west", d)] = specFirstMax a b c d := by
  show ([("south", b), ("east", c), ("west", d)].foldl
      (fun best x => if x.2 > best.2 then x else best) ("north", a)).1 = specFirstMax a b c d
  simp only [List.foldl_cons, List.foldl_nil]
  by_cases h1 : b > a <;> by_cases h2 : c > a <;> by_cases h3 : c > b <;>
    by_cases h4 : d > a <;> by_cases h5 : d > b <;> by_cases h6 : d > c <;>
    simp only [h1, h2, h3, h4, h5, h6, if_true, if_false, ite_true, ite_false,
      eq_self_iff_true, specFirstMax] <;>
    split_ifs <;> first | rfl | (exfalso; omega)

/-- The count stored under the first-maximal direction is the maximum of
the four counts. -/
lemma lookup_quad_specFirstMax (a b c d : ℕ) :
    List.lookup (specFirstMax a b c d) [("north", a), ("south", b), ("east", c), ("west", d)]
      = some (max (max a b) (max c d)) := by
  simp only [specFirstMax]
  split_ifs with h1 h2 h3
  · rw [lookup_quad_north]; exact congrArg some h1
  · rw [lookup_quad_south]; exact congrArg some h2
  · rw [lookup_quad_east]; exact congrArg some h3
  · rw [lookup_quad_west]; exact congrArg some (by omega)

/-- The fold used by maxTrafficDir returns its start value or one of the
list elements. -/
lemma foldl_best_mem (l : List (String × ℕ)) (p : String × ℕ) :
    l.foldl (fun best x => if x.2 > best.2 then x else best) p ∈ p :: l := by
  induction l generalizing p with
  | nil => simp
  | cons x xs ih =>
    rw [List.foldl_cons]
    rcases List.mem_cons.1 (ih (if x.2 > p.2 then x else p)) with h | h
    · rw [h]
      by_cases hc : x.2 > p.2
      · rw [if_pos hc]; exact List.mem_cons_of_mem _ (List.mem_cons_self _ _)
      · rw [if_neg hc]; exact List.mem_cons_self _ _
    · exact List.mem_cons_of_mem _ (List.mem_cons_of_mem _ h)

/-- On a nonempty counts list, maxTrafficDir returns one of the keys. -/
lemma maxTrafficDir_mem_keys (l : List (String × ℕ)) (hne : l ≠ []) :
    maxTrafficDir l ∈ l.map Prod.fst := by
  match l, hne with
  | kv :: rest, _ =>
    have h := foldl_best_mem rest kv
    simp only [maxTrafficDir]
    exact List.mem_map_of_mem Prod.fst h

/-- Looking up a key that is present in an association list succeeds. -/
lemma lookup_isSome_of_mem_keys (x : String) (l : List (String × ℕ))
    (h : x ∈ l.map Prod.fst) : (l.lookup x).isSome := by
  induction l with
  | nil => simp at h
  | cons kv rest ih =>
    by_cases hx : x = kv.1
    · simp [List.lookup, hx]
    · have hr : x ∈ rest.map Prod.fst := by
        obtain ⟨p, hp, hpx⟩ := List.mem_map.1 h
        rcases List.mem_cons.1 hp with h1 | h1
        · exact absurd (by rw [← hpx, h1]) hx
        · rw [← hpx]; exact List.mem_map_of_mem Prod.fst h1
      have hstep : List.lookup x (kv :: rest) = List.lookup x rest := by
        rcases kv with ⟨k, v⟩
        simp only [List.lookup]
        rw [show (x == k) = false from beq_eq_false_iff_ne.2 hx]
      rw [hstep]
      exact ih hr

/-- Full evaluation of the controller on a no-override state with the
four standard keys: the three rules in their priority order, with the
busiest direction expressed through specFirstMax and the maximum
count. -/
lemma controller_eval (a b c d : ℕ) (sig : String) (t now : ℚ) (cc : ℕ)
    (hcc : List.lookup sig [("north", a), ("south", b), ("east", c), ("west", d)] = some cc) :
    ai_signal_controller now (mkState a b c d sig false t) =
      (if now - t > 30 then some (mkState a b c d (specFirstMax a b c d) false now)
       else if now - t > 8 ∧ cc < 3 ∧ max (max a b) (max c d) > 15 ∧ specFirstMax a b c d ≠ sig then
         some (mkState a b c d (specFirstMax a b c d) false now)
       else if max (max a b) (max c d) > 15 * 2 ∧ specFirstMax a b c d ≠ sig ∧ now - t > 4 then
         some (mkState a b c d (specFirstMax a b c d) false now)
       else some (mkState a b c d sig false t)) := by
  simp only [ai_signal_controller, mkState, Bool.false_eq_true, if_false, ite_false,
    Bool.false_eq_true, maxTrafficDir_quad, lookup_quad_specFirstMax, hcc, Option.bind_some,
    Option.some_bind, MAX_GREEN_TIME, MIN_GREEN_TIME, HIGH_TRAFFIC_THRESHOLD,
    LOW_TRAFFIC_THRESHOLD]
  norm_num

/-! ### Structural invariant of the shared state -/

/-- The structural invariant of the shared state: the counts dictionary
has exactly the four standard keys in their fixed order, and the active
signal is one of them. -/
def GoodState (s : TrafficState) : Prop :=
  s.traffic_counts.map Prod.fst = valid_directions ∧ s.current_signal ∈ valid_directions

/-- Any result the controller commits is either the input state or the
input with the signal set to the maximum-traffic direction and the
timer reset to the clock reading. -/
lemma controller_cases (now : ℚ) (s s' : TrafficState)
    (he : ai_signal_controller now s = some s') :
    s' = s ∨ s' = { s with current_signal := maxTrafficDir s.traffic_counts,
                           signal_timer := now } := by
  by_cases hov : s.manual_override
  · left
    simp only [ai_signal_controller, hov, if_true, Option.some.injEq] at he
    exact he.symm
  · have hovf : s.manual_override = false := by simpa using hov
    simp only [ai_signal_controller, hov, Bool.false_eq_true, if_false, ite_false] at he
    rcases hl1 : List.lookup s.current_signal s.traffic_counts with _ | cc
    · rw [hl1] at he; simp at he
    · rw [hl1] at he
      rcases hl2 : List.lookup (maxTrafficDir s.traffic_counts) s.traffic_counts with _ | mc
      · rw [hl2] at he; simp at he
      · rw [hl2] at he
        simp only [Option.some_bind] at he
        split_ifs at he <;> simp only [Option.some.injEq] at he
        · right; rw [hovf]; exact he.symm
        · right; rw [hovf]; exact he.symm
        · right; rw [hovf]; exact he.symm
        · left; exact he.symm

/-- On a state satisfying the structural invariant both dictionary
lookups of the controller succeed, so the controller never raises
KeyError and always returns a committed state. -/
lemma controller_isSome (s : TrafficState) (h : GoodState s) (now : ℚ) :
    (ai_signal_controller now s).isSome := by
  by_cases hov : s.manual_override
  · simp [ai_signal_controller, hov]
  · have h1 : (s.traffic_counts.lookup s.current_signal).isSome := by
      apply lookup_isSome_of_mem_keys
      rw [h.1]; exact h.2
    have hne : s.traffic_counts ≠ [] := by
      intro hnil
      have := h.1
      rw [hnil] at this
      simp [valid_directions] at this
    have h2 : (s.traffic_counts.lookup (maxTrafficDir s.traffic_counts)).isSome := by
      apply lookup_isSome_of_mem_keys
      exact maxTrafficDir_mem_keys _ hne
    obtain ⟨cc, hcc⟩ := Option.isSome_iff_exists.1 h1
    obtain ⟨mc, hmc⟩ := Option.isSome_iff_exists.1 h2
    simp only [ai_signal_controller, hov, Bool.false_eq_true, if_false, ite_false, hcc, hmc,
      Option.some_bind]
    split_ifs <;> rfl

/-- The smoothing commit only rewrites values: the key list is
untouched. -/
lemma updateCounts_keys (region_counts : String → ℕ) (counts : List (String × ℕ)) :
    (updateCountsWithSmoothing region_counts counts).map Prod.fst = counts.map Prod.fst := by
  simp [updateCountsWithSmoothing, List.map_map, Function.comp]

/-- One detection cycle either only commits the smoothed counts (the
controller raised KeyError or decided nothing is recorded inside the
controller result itself), or additionally commits a controller
decision. -/
lemma detection_cycle_spec (region_counts : String → ℕ) (now : ℚ) (s : TrafficState) :
    detection_cycle region_counts now s
        = { s with traffic_counts := updateCountsWithSmoothing region_counts s.traffic_counts }
    ∨ ai_signal_controller now
        { s with traffic_counts := updateCountsWithSmoothing region_counts s.traffic_counts }
        = some (detection_cycle region_counts now s) := by
  rcases he : ai_signal_controller now
      { s with traffic_counts := updateCountsWithSmoothing region_counts s.traffic_counts }
    with _ | s2
  · left
    unfold detection_cycle
    rw [he]
  · right
    unfold detection_cycle
    rw [he]

/-- One detection cycle preserves the structural invariant. -/
lemma good_detect (region_counts : String → ℕ) (now : ℚ) (s : TrafficState)
    (h : GoodState s) : GoodState (detection_cycle region_counts now s) := by
  have h1 : GoodState { s with traffic_counts := updateCountsWithSmoothing region_counts s.traffic_counts } :=
    ⟨by rw [updateCounts_keys]; exact h.1, h.2⟩
  rcases detection_cycle_spec region_counts now s with heq | he
  · rw [heq]; exact h1
  · rcases controller_cases _ _ _ he with h2 | h2
    · rw [h2]; exact h1
    · rw [h2]
      refine ⟨h1.1, ?_⟩
      have hmem : maxTrafficDir (updateCountsWithSmoothing region_counts s.traffic_counts)
          ∈ (updateCountsWithSmoothing region_counts s.traffic_counts).map Prod.fst := by
        apply maxTrafficDir_mem_keys
        intro hnil
        have h3 := h1.1
        rw [hnil] at h3
        simp [valid_directions] at h3
      rw [h1.1] at hmem
      exact hmem

/-- A manual-override request preserves the structural invariant. -/
lemma good_manual (direction : String) (now : ℚ) (s : TrafficState)
    (h : GoodState s) : GoodState (set_signal direction now s).2 := by
  unfold set_signal
  by_cases hv : strToLower direction ∉ valid_directions
  · rw [if_pos hv]; exact h
  · rw [if_neg hv]
    exact ⟨h.1, not_not.1 hv⟩

/-- Clearing the override preserves the structural invariant. -/
lemma good_clear (s : TrafficState) (h : GoodState s) : GoodState (end_override s) :=
  ⟨h.1, h.2⟩

/-- The initial state satisfies the structural invariant. -/
lemma good_init : GoodState initTrafficState := by
  constructor <;> simp [initTrafficState, valid_directions]

/-- Every reachable state satisfies the structural invariant. -/
lemma reachable_good (s : TrafficState) (h : Reachable s) : GoodState s := by
  induction h with
  | init => exact good_init
  | detect region_counts now s _ ih => exact good_detect region_counts now s ih
  | manual direction now s _ ih => exact good_manual direction now s ih
  | clear s _ ih => exact good_clear s ih

/-! ### Claim theorems -/

/-- C1: if manual override is true, invoking the signal controller is a
complete no-op for every combination of traffic counts and elapsed
time: a single invocation returns the state unchanged, and any sequence
of repeated invocations at arbitrary clock readings leaves the state,
including the active direction and the phase timer, exactly as it was,
so automatic switching stays suppressed until the override flag itself
is cleared. -/
theorem claim_C1_override_suppression (s : TrafficState) (h : s.manual_override = true) :
    (∀ now : ℚ, ai_signal_controller now s = some s) ∧
    ∀ nows : List ℚ,
      nows.foldl (fun st t => (ai_signal_controller t st).getD st) s = s := by
  have hone : ∀ now : ℚ, ai_signal_controller now s = some s := by
    intro now
    simp [ai_signal_controller, h]
  refine ⟨hone, ?_⟩
  intro nows
  induction nows with
  | nil => rfl
  | cons t ts ih =>
    rw [List.foldl_cons]
    have hstep : (ai_signal_controller t s).getD s = s := by rw [hone t]; rfl
    rw [hstep]
    exact ih

/-- Witness for C1 at a concrete overridden state and three clock
readings. -/
theorem claim_C1_witness :
    [(0 : ℚ), 40, 100].foldl (fun st t => (ai_signal_controller t st).getD st)
      (mkState 5 9 2 7 "east" true 3) = mkState 5 9 2 7 "east" true 3 :=
  (claim_C1_override_suppression (mkState 5 9 2 7 "east" true 3) rfl).2 [0, 40, 100]

/-- C2: with override false, whenever the elapsed phase time exceeds
MAX_GREEN (30 s) the controller switches to the busiest direction, the
first direction in the fixed order north, south, east, west attaining
the maximum count, and resets the phase timer to the clock reading,
even when that direction already equals the active one; the busiest
direction computed by the code agrees with the spec wording through
specFirstMax. -/
theorem claim_C2_timeout_rule (a b c d : ℕ) (sig : String) (t now : ℚ)
    (hsig : sig ∈ valid_directions) (hto : now - t > 30) :
    ai_signal_controller now (mkState a b c d sig false t)
      = some (mkState a b c d (specFirstMax a b c d) false now) ∧
    maxTrafficDir (mkState a b c d sig false t).traffic_counts = specFirstMax a b c d ∧
    MAX_GREEN_TIME = 30 := by
  have hsig4 : sig = "north" ∨ sig = "south" ∨ sig = "east" ∨ sig = "west" := by
    simpa [valid_directions] using hsig
  obtain ⟨cc, hcc⟩ : ∃ cc,
      List.lookup sig [("north", a), ("south", b), ("east", c), ("west", d)] = some cc := by
    rcases hsig4 with rfl | rfl | rfl | rfl
    · exact ⟨a, lookup_quad_north a b c d⟩
    · exact ⟨b, lookup_quad_south a b c d⟩
    · exact ⟨c, lookup_quad_east a b c d⟩
    · exact ⟨d, lookup_quad_west a b c d⟩
  refine ⟨?_, maxTrafficDir_quad a b c d, rfl⟩
  rw [controller_eval a b c d sig t now cc hcc, if_pos hto]

/-- Witness for C2 at a state whose busiest direction equals the active
one: the switch is a no-op on the direction but still resets the
timer. -/
theorem claim_C2_witness :
    ai_signal_controller 31 (mkState 20 1 1 1 "north" false 0)
      = some (mkState 20 1 1 1 "north" false 31) := by
  have h := (claim_C2_timeout_rule 20 1 1 1 "north" 0 31 (by decide) (by norm_num)).1
  rw [show specFirstMax 20 1 1 1 = "north" from rfl] at h
  exact h

/-- C3: with override false and the timeout rule not firing, if the
elapsed time exceeds MIN_GREEN (8 s), the active count is below
LOW_THRESHOLD (3), the busiest count exceeds HIGH_THRESHOLD (15) and
the busiest direction differs from the active one, the controller
switches to the busiest direction and resets the timer; in particular
elapsed 10 s with active north (count 1) and south count 20 switches to
south, while elapsed 5 s with the same counts changes nothing. -/
theorem claim_C3_starvation_rule :
    (∀ (a b c d : ℕ) (sig : String) (t now : ℚ) (cc : ℕ),
      List.lookup sig [("north", a), ("south", b), ("east", c), ("west", d)] = some cc →
      ¬ now - t > 30 → now - t > 8 → cc < 3 →
      max (max a b) (max c d) > 15 → specFirstMax a b c d ≠ sig →
      ai_signal_controller now (mkState a b c d sig false t)
        = some (mkState a b c d (specFirstMax a b c d) false now)) ∧
    ai_signal_controller 10 (mkState 1 20 0 0 "north" false 0)
      = some (mkState 1 20 0 0 "south" false 10) ∧
    ai_signal_controller 5 (mkState 1 20 0 0 "north" false 0)
      = some (mkState 1 20 0 0 "north" false 0) ∧
    MIN_GREEN_TIME = 8 ∧ LOW_TRAFFIC_THRESHOLD = 3 ∧ HIGH_TRAFFIC_THRESHOLD = 15 := by
  have hgen : ∀ (a b c d : ℕ) (sig : String) (t now : ℚ) (cc : ℕ),
      List.lookup sig [("north", a), ("south", b), ("east", c), ("west", d)] = some cc →
      ¬ now - t > 30 → now - t > 8 → cc < 3 →
      max (max a b) (max c d) > 15 → specFirstMax a b c d ≠ sig →
      ai_signal_controller now (mkState a b c d sig false t)
        = some (mkState a b c d (specFirstMax a b c d) false now) := by
    intro a b c d sig t now cc hcc hnoto hmin hlow hhigh hne
    rw [controller_eval a b c d sig t now cc hcc, if_neg hnoto, if_pos ⟨hmin, hlow, hhigh, hne⟩]
  refine ⟨hgen, ?_, ?_, rfl, rfl, rfl⟩
  · have h := hgen 1 20 0 0 "north" 0 10 1 (lookup_quad_north 1 20 0 0)
      (by norm_num) (by norm_num) (by norm_num) (by norm_num) (by decide)
    rw [show specFirstMax 1 20 0 0 = "south" from rfl] at h
    exact h
  · rw [controller_eval 1 20 0 0 "north" 0 5 1 (lookup_quad_north 1 20 0 0)]
    rw [if_neg (by norm_num), if_neg (by rintro ⟨h8, -, -, -⟩; norm_num at h8),
      if_neg (by rintro ⟨h30, -, -⟩; norm_num at h30)]

/-- Witness for C3: the general starvation rule applied at the spec
instance, elapsed 10 s, active north with count 1, south count 20. -/
theorem claim_C3_witness :
    ai_signal_controller 10 (mkState 1 20 0 0 "north" false 0)
      = some (mkState 1 20 0 0 "south" false 10) := by
  have h := claim_C3_starvation_rule.1 1 20 0 0 "north" 0 10 1 (lookup_quad_north 1 20 0 0)
    (by norm_num) (by norm_num) (by norm_num) (by norm_num) (by decide)
  rw [show specFirstMax 1 20 0 0 = "south" from rfl] at h
  exact h

/-- C4: with override false and neither the timeout rule nor the
starvation rule firing, if the busiest count exceeds twice
HIGH_THRESHOLD (30), the busiest direction differs from the active one
and the elapsed time exceeds MIN_GREEN divided by 2 with integer
division (4 s), the controller switches to the busiest direction and
resets the timer; with elapsed at or below 4 s and no other rule
firing nothing changes; in particular elapsed 5 s with east count 31
switches to east while elapsed 2 s does not. -/
theorem claim_C4_emergency_rule :
    (∀ (a b c d : ℕ) (sig : String) (t now : ℚ) (cc : ℕ),
      List.lookup sig [("north", a), ("south", b), ("east", c), ("west", d)] = some cc →
      ¬ now - t > 30 →
      ¬(now - t > 8 ∧ cc < 3 ∧ max (max a b) (max c d) > 15 ∧ specFirstMax a b c d ≠ sig) →
      max (max a b) (max c d) > 30 → specFirstMax a b c d ≠ sig → now - t > 4 →
      ai_signal_controller now (mkState a b c d sig false t)
        = some (mkState a b c d (specFirstMax a b c d) false now)) ∧
    (∀ (a b c d : ℕ) (sig : String) (t now : ℚ) (cc : ℕ),
      List.lookup sig [("north", a), ("south", b), ("east", c), ("west", d)] = some cc →
      ¬ now - t > 30 →
      ¬(now - t > 8 ∧ cc < 3 ∧ max (max a b) (max c d) > 15 ∧ specFirstMax a b c d ≠ sig) →
      ¬ now - t > 4 →
      ai_signal_controller now (mkState a b c d sig false t)
        = some (mkState a b c d sig false t)) ∧
    ai_signal_controller 5 (mkState 1 0 31 0 "north" false 0)
      = some (mkState 1 0 31 0 "east" false 5) ∧
    ai_signal_controller 2 (mkState 1 0 31 0 "north" false 0)
      = some (mkState 1 0 31 0 "north" false 0) ∧
    MIN_GREEN_TIME / 2 = 4 ∧ HIGH_TRAFFIC_THRESHOLD * 2 = 30 := by
  have hgen : ∀ (a b c d : ℕ) (sig : String) (t now : ℚ) (cc : ℕ),
      List.lookup sig [("north", a), ("south", b), ("east", c), ("west", d)] = some cc →
      ¬ now - t > 30 →
      ¬(now - t > 8 ∧ cc < 3 ∧ max (max a b) (max c d) > 15 ∧ specFirstMax a b c d ≠ sig) →
      max (max a b) (max c d) > 30 → specFirstMax a b c d ≠ sig → now - t > 4 →
      ai_signal_controller now (mkState a b c d sig false t)
        = some (mkState a b c d (specFirstMax a b c d) false now) := by
    intro a b c d sig t now cc hcc hnoto hnost hhigh hne h4
    rw [controller_eval a b c d sig t now cc hcc, if_neg hnoto, if_neg hnost,
      if_pos ⟨by omega, hne, h4⟩]
  refine ⟨hgen, ?_, ?_, ?_, rfl, rfl⟩
  · intro a b c d sig t now cc hcc hnoto hnost h4
    rw [controller_eval a b c d sig t now cc hcc, if_neg hnoto, if_neg hnost,
      if_neg (by rintro ⟨-, -, h⟩; exact h4 h)]
  · have h := hgen 1 0 31 0 "north" 0 5 1 (lookup_quad_north 1 0 31 0)
      (by norm_num) (by rintro ⟨h8, -, -, -⟩; norm_num at h8) (by norm_num)
      (by decide) (by norm_num)
    rw [show specFirstMax 1 0 31 0 = "east" from rfl] at h
    exact h
  · rw [controller_eval 1 0 31 0 "north" 0 2 1 (lookup_quad_north 1 0 31 0)]
    rw [if_neg (by norm_num), if_neg (by rintro ⟨h8, -, -, -⟩; norm_num at h8),
      if_neg (by rintro ⟨-, -, h4⟩; norm_num at h4)]

/-- Witness for C4: the emergency rule applied at the spec instance,
elapsed 5 s, active north, east count 31. -/
theorem claim_C4_witness :
    ai_signal_controller 5 (mkState 1 0 31 0 "north" false 0)
      = some (mkState 1 0 31 0 "east" false 5) := by
  have h := claim_C4_emergency_rule.1 1 0 31 0 "north" 0 5 1 (lookup_quad_north 1 0 31 0)
    (by norm_num) (by rintro ⟨h8, -, -, -⟩; norm_num at h8) (by norm_num)
    (by decide) (by norm_num)
  rw [show specFirstMax 1 0 31 0 = "east" from rfl] at h
  exact h

/-- C7: set_signal validates its input case-insensitively against the
closed set of four directions; every string whose lowercasing is not in
the set produces the 400 error listing the valid directions and leaves
the whole state unchanged, and every string whose lowercasing is in the
set stores that lowercased direction, raises the override flag and
resets the phase timer. -/
theorem claim_C7_set_manual_validation (direction : String) (now : ℚ) (s : TrafficState) :
    (strToLower direction ∉ valid_directions →
      set_signal direction now s = (ApiResult.badRequest valid_directions 400, s)) ∧
    (strToLower direction ∈ valid_directions →
      set_signal direction now s =
        (ApiResult.success (strToLower direction) true,
         { s with current_signal := strToLower direction, manual_override := true,
                  signal_timer := now })) := by
  constructor <;> intro h
  · rw [set_signal, if_pos h]
  · rw [set_signal, if_neg (not_not.2 h)]

/-- Witness for C7: a rejected direction leaves the initial state
untouched, and an uppercase valid direction is stored lowercased with
the override raised and the timer reset. -/
theorem claim_C7_witness :
    set_signal "northeast" 1 initTrafficState
      = (ApiResult.badRequest valid_directions 400, initTrafficState) ∧
    set_signal "NORTH" 2 initTrafficState
      = (ApiResult.success "north" true, mkState 0 0 0 0 "north" true 2) := by
  constructor
  · exact (claim_C7_set_manual_validation "northeast" 1 initTrafficState).1 (by decide)
  · have h := (claim_C7_set_manual_validation "NORTH" 2 initTrafficState).2 (by decide)
    rw [show strToLower "NORTH" = "north" from rfl] at h
    exact h

/-- C8 counterexample: the stated timer-reset biconditional fails in
both directions on the code.  First, with override false and elapsed
31 s over counts that make the active direction the busiest, the
timeout rule fires a no-op switch: the timer is reset although neither
the active direction nor the override flag changes.  Second,
end_override clears the override flag yet leaves the timer untouched. -/
theorem claim_C8_counterexample :
    (ai_signal_controller 31 (mkState 0 0 0 0 "north" false 0)
        = some (mkState 0 0 0 0 "north" false 31) ∧
      (mkState 0 0 0 0 "north" false 31).signal_timer
        ≠ (mkState 0 0 0 0 "north" false 0).signal_timer ∧
      (mkState 0 0 0 0 "north" false 31).current_signal
        = (mkState 0 0 0 0 "north" false 0).current_signal ∧
      (mkState 0 0 0 0 "north" false 31).manual_override
        = (mkState 0 0 0 0 "north" false 0).manual_override) ∧
    (end_override (mkState 0 0 0 0 "north" true 5) = mkState 0 0 0 0 "north" false 5 ∧
      (mkState 0 0 0 0 "north" true 5).manual_override = true ∧
      (end_override (mkState 0 0 0 0 "north" true 5)).signal_timer
        = (mkState 0 0 0 0 "north" true 5).signal_timer) := by
  refine ⟨⟨?_, by norm_num [mkState], rfl, rfl⟩, rfl, rfl, rfl⟩
  rw [controller_eval 0 0 0 0 "north" 0 31 0 (lookup_quad_north 0 0 0 0), if_pos (by norm_num)]
  rfl

/-- C8 amended: an operation that changes the active direction always
resets the timer to its clock reading, and every successful manual
override set resets it unconditionally, even when it re-stores the
already active direction of an already overridden state; a rejected
set changes nothing at all; clearing the override never touches the
timer, the counts or the active direction; in addition the controller
can reset the timer without changing the direction (the timeout rule
no-op switch of the counterexample). -/
theorem claim_C8_timer_reset_amended (s : TrafficState) (now : ℚ)
    (region_counts : String → ℕ) (direction : String) :
    ((detection_cycle region_counts now s).current_signal ≠ s.current_signal →
      (detection_cycle region_counts now s).signal_timer = now) ∧
    (strToLower direction ∈ valid_directions →
      (set_signal direction now s).2.signal_timer = now) ∧
    (strToLower direction ∉ valid_directions →
      (set_signal direction now s).2 = s) ∧
    (end_override s).signal_timer = s.signal_timer ∧
    (end_override s).current_signal = s.current_signal ∧
    (end_override s).traffic_counts = s.traffic_counts := by
  refine ⟨?_, ?_, ?_, rfl, rfl, rfl⟩
  · rcases detection_cycle_spec region_counts now s with heq | he
    · rw [heq]; intro h; exact absurd rfl h
    · rcases controller_cases _ _ _ he with h2 | h2
      · rw [h2]; intro h; exact absurd rfl h
      · rw [h2]; intro _; rfl
  · intro h
    rw [set_signal, if_neg (not_not.2 h)]
  · intro h
    rw [set_signal, if_pos h]

/-- Witness for C8 amended: a successful manual override re-setting the
already active direction of an already overridden state still resets
the timer, and clearing an override preserves it. -/
theorem claim_C8_witness :
    (set_signal "north" 1 (mkState 0 0 0 0 "north" true 5)).2.signal_timer = 1 ∧
    (end_override (mkState 0 0 0 0 "north" true 5)).signal_timer
      = (mkState 0 0 0 0 "north" true 5).signal_timer :=
  ⟨(claim_C8_timer_reset_amended (mkState 0 0 0 0 "north" true 5) 1 (fun _ => 0) "north").2.1
      (by decide),
   (claim_C8_timer_reset_amended (mkState 0 0 0 0 "north" true 5) 1 (fun _ => 0) "north").2.2.2.1⟩

/-- C9: in every reachable state the active signal is one of the four
keys of the counts mapping, the key list is always exactly north,
south, east, west, the initial signal is north, and on reachable
states the controller, with both of its dictionary lookups, is total:
it never hits the KeyError branch. -/
theorem claim_C9_active_signal_safety (s : TrafficState) (h : Reachable s) :
    s.current_signal ∈ s.traffic_counts.map Prod.fst ∧
    s.traffic_counts.map Prod.fst = valid_directions ∧
    initTrafficState.current_signal = "north" ∧
    ∀ now : ℚ, (ai_signal_controller now s).isSome := by
  have hg := reachable_good s h
  exact ⟨by rw [hg.1]; exact hg.2, hg.1, rfl, fun now => controller_isSome s hg now⟩

/-- Witness for C9 at the initial state. -/
theorem claim_C9_witness :
    initTrafficState.current_signal ∈ initTrafficState.traffic_counts.map Prod.fst ∧
    (ai_signal_controller 0 initTrafficState).isSome :=
  ⟨(claim_C9_active_signal_safety initTrafficState Reachable.init).1,
   (claim_C9_active_signal_safety initTrafficState Reachable.init).2.2.2 0⟩

/-- A detector reading with twenty vehicles seen to the north and none
elsewhere, used by the snapshot interleaving below. -/
def regionCountsNorth20 : String → ℕ := fun d => if d = "north" then 20 else 0

/-- C10: the snapshot read is not atomic.  get_counts copies the counts
inside the lock but reads current_signal and manual_override after
releasing it, so with a detection commit and then a manual override
between the two phases the reader returns the old counts paired with
the new signal and override flag, a combination matching the atomic
snapshot of none of the three committed states. -/
theorem claim_C10_snapshot_not_atomic :
    detection_cycle regionCountsNorth20 5 initTrafficState = mkState 6 0 0 0 "north" false 0 ∧
    (set_signal "south" 6 (mkState 6 0 0 0 "north" false 0)).2
      = mkState 6 0 0 0 "south" true 6 ∧
    (get_counts_response (get_counts_locked_copy initTrafficState)
        (mkState 6 0 0 0 "south" true 6) 7).counts = initTrafficState.traffic_counts ∧
    (get_counts_response (get_counts_locked_copy initTrafficState)
        (mkState 6 0 0 0 "south" true 6) 7).signal = "south" ∧
    get_counts_response (get_counts_locked_copy initTrafficState)
        (mkState 6 0 0 0 "south" true 6) 7 ≠ get_counts_atomic initTrafficState 7 ∧
    get_counts_response (get_counts_locked_copy initTrafficState)
        (mkState 6 0 0 0 "south" true 6) 7 ≠ get_counts_atomic (mkState 6 0 0 0 "north" false 0) 7 ∧
    get_counts_response (get_counts_locked_copy initTrafficState)
        (mkState 6 0 0 0 "south" true 6) 7 ≠ get_counts_atomic (mkState 6 0 0 0 "south" true 6) 7 := by
  refine ⟨?_, ?_, rfl, rfl, ?_, ?_, ?_⟩
  · have hs1 : ({ initTrafficState with
        traffic_counts := updateCountsWithSmoothing regionCountsNorth20
          initTrafficState.traffic_counts } : TrafficState)
        = mkState 6 0 0 0 "north" false 0 := by
      rw [show updateCountsWithSmoothing regionCountsNorth20 initTrafficState.traffic_counts
          = [("north", 6), ("south", 0), ("east", 0), ("west", 0)] from by decide]
      rfl
    unfold detection_cycle
    rw [hs1, controller_eval 6 0 0 0 "north" 0 5 6 (lookup_quad_north 6 0 0 0),
      if_neg (by norm_num), if_neg (by rintro ⟨h8, -, -, -⟩; norm_num at h8),
      if_neg (by rintro ⟨hm, -, -⟩; norm_num at hm)]
  · rw [set_signal, if_neg (by decide)]
    rfl
  · intro h
    exact absurd (congrArg CountsResponse.signal h) (by decide)
  · intro h
    exact absurd (congrArg CountsResponse.manual_override h) (by decide)
  · intro h
    exact absurd (congrArg CountsResponse.counts h) (by decide)

/-! ### The smoothing claims

The spec asserts that the smoother computes the exact floor of
0.7 * previous + 0.3 * observed.  The source computes that expression
in binary64 floating point and truncates; at some inputs, the first
being previous = observed = 3, the float sum lands just below the exact
integer value and the truncation returns one less than the exact
floor.  The bounded checks below settle the corrected statements over
the count range 0 to 61, which safely contains every threshold of the
controller (the largest being 2 * HIGH_TRAFFIC_THRESHOLD = 30). -/

/-- Boolean single-step check used by the bounded grid verification:
the float result stays within one below the exact floor, and it steps
toward the observed value without crossing it by more than the one
truncation unit. -/
def stepOk (p o : ℕ) : Bool :=
  let f := smoothFloat p o
  let ex := smoothSpecFloor p o
  decide (ex - 1 ≤ f) && decide (f ≤ ex) &&
  (if p < o then decide (p ≤ f) && decide (f < o)
   else decide (o - 1 ≤ f) && decide (f ≤ p))

/-- Four translated copies of the single-step check, covering the four
quadrants of the count grid 0 to 61 from base points in 0 to 30 (31
plus 30 is 61, so the two offsets 0 and 31 cover every value up to
61). -/
def stepOk4 (p o : ℕ) : Bool :=
  stepOk p o && stepOk (p + 31) o && stepOk p (o + 31) && stepOk (p + 31) (o + 31)

set_option maxRecDepth 10000 in
set_option maxHeartbeats 4000000 in
/-- Exhaustive verification of the single-step properties on the whole
count grid 0 to 61, quadrant by quadrant. -/
lemma smooth_grid_check : ∀ p : ℕ, p ≤ 30 → ∀ o : ℕ, o ≤ 30 → stepOk4 p o = true := by decide

/-- The single-step check holds at every pair of counts up to 61. -/
lemma stepOk_true (p o : ℕ) (hp : p ≤ 61) (ho : o ≤ 61) : stepOk p o = true := by
  by_cases hp1 : p ≤ 30 <;> by_cases ho1 : o ≤ 30
  · have h := smooth_grid_check p hp1 o ho1
    simp only [stepOk4, Bool.and_eq_true] at h
    exact h.1.1.1
  · have h := smooth_grid_check p hp1 (o - 31) (by omega)
    simp only [stepOk4, Bool.and_eq_true] at h
    have h2 := h.1.2
    rw [show o - 31 + 31 = o from by omega] at h2
    exact h2
  · have h := smooth_grid_check (p - 31) (by omega) o ho1
    simp only [stepOk4, Bool.and_eq_true] at h
    have h2 := h.1.1.2
    rw [show p - 31 + 31 = p from by omega] at h2
    exact h2
  · have h := smooth_grid_check (p - 31) (by omega) (o - 31) (by omega)
    simp only [stepOk4, Bool.and_eq_true] at h
    have h2 := h.2
    rw [show p - 31 + 31 = p from by omega, show o - 31 + 31 = o from by omega] at h2
    exact h2

/-- The single-step properties in propositional form, unpacked from the
grid check. -/
lemma smooth_step_bounds (p o : ℕ) (hp : p ≤ 61) (ho : o ≤ 61) :
    (smoothSpecFloor p o - 1 ≤ smoothFloat p o ∧ smoothFloat p o ≤ smoothSpecFloor p o) ∧
    (p < o → p ≤ smoothFloat p o ∧ smoothFloat p o < o) ∧
    (o ≤ p → o - 1 ≤ smoothFloat p o ∧ smoothFloat p o ≤ p) := by
  have h := stepOk_true p o hp ho
  simp only [stepOk] at h
  by_cases hpo : p < o
  · rw [if_pos hpo] at h
    simp only [Bool.and_eq_true, decide_eq_true_eq] at h
    exact ⟨⟨h.1.1, h.1.2⟩, fun _ => h.2, fun hc => absurd hpo (not_lt.2 hc)⟩
  · rw [if_neg hpo] at h
    simp only [Bool.and_eq_true, decide_eq_true_eq] at h
    exact ⟨⟨h.1.1, h.1.2⟩, fun hc => absurd hc hpo, fun _ => h.2⟩

/-- The iterated smoothing sequence from initial value p0 under a
constant observed input o: the value held for one direction after n
detection cycles that each saw o vehicles there. -/
def smoothIter (p0 o : ℕ) : ℕ → ℕ
  | 0 => p0
  | n + 1 => smoothFloat (smoothIter p0 o n) o

/-- C5 counterexample: at previous = observed = 3 the source computes
int (0.7 * 3 + 0.3 * 3) = 2 in binary64 arithmetic (the float sum is
just below 3), one less than the exact floor of 0.7 * 3 + 0.3 * 3,
which is 3, so the smoother does not equal the exact floor on every
pair of non-negative integers. -/
theorem claim_C5_counterexample :
    smoothFloat 3 3 = 2 ∧ smoothSpecFloor 3 3 = 3 ∧
    smoothFloat 3 3 ≠ smoothSpecFloor 3 3 := by decide

/-- C5 amended: the smoother is a pure deterministic function of
(previous, observed), applied independently to each of the four
directions every detection cycle with observed = 0 a valid input; for
all counts up to 61 its result equals the exact floor of
0.7 * previous + 0.3 * observed or that floor minus one, the deficit
arising when the binary64 sum lands just below an exact integer, as at
(3, 3). -/
theorem claim_C5_smoothing_amended :
    (∀ p o : ℕ, p ≤ 61 → o ≤ 61 →
      smoothSpecFloor p o - 1 ≤ smoothFloat p o ∧ smoothFloat p o ≤ smoothSpecFloor p o) ∧
    (∀ (a b c d : ℕ) (region_counts : String → ℕ),
      updateCountsWithSmoothing region_counts
          [("north", a), ("south", b), ("east", c), ("west", d)]
        = [("north", smoothFloat a (region_counts "north")),
           ("south", smoothFloat b (region_counts "south")),
           ("east", smoothFloat c (region_counts "east")),
           ("west", smoothFloat d (region_counts "west"))]) :=
  ⟨fun p o hp ho => (smooth_step_bounds p o hp ho).1,
   fun _ _ _ _ _ => rfl⟩

/-- Witness for C5 amended at the deficit point (3, 3). -/
theorem claim_C5_witness :
    smoothSpecFloor 3 3 - 1 ≤ smoothFloat 3 3 ∧ smoothFloat 3 3 ≤ smoothSpecFloor 3 3 :=
  claim_C5_smoothing_amended.1 3 3 (by decide) (by decide)

/-- C6 counterexample: the iterated sequence from p0 = 3 under constant
observed input o = 3 is not non-decreasing although p0 ≤ o: it drops
from 3 to 2 in one step, crossing below o. -/
theorem claim_C6_counterexample :
    smoothIter 3 3 0 = 3 ∧ smoothIter 3 3 1 = 2 ∧
    ¬ smoothIter 3 3 0 ≤ smoothIter 3 3 1 := by decide

/-- C6 amended: for counts up to 61, from p0 strictly below o the
iterated sequence is non-decreasing and never reaches o, and from p0
at or above o it is non-increasing, never rises above p0, and never
drops below o - 1; the one-unit drop below o, possible exactly because
the float evaluation can undershoot the exact floor, is the
counterexample at p0 = o = 3. -/
theorem claim_C6_convergence_amended (p0 o : ℕ) (hp : p0 ≤ 61) (ho : o ≤ 61) :
    (p0 < o → ∀ n : ℕ,
      smoothIter p0 o n ≤ smoothIter p0 o (n + 1) ∧ smoothIter p0 o n < o) ∧
    (o ≤ p0 → ∀ n : ℕ,
      smoothIter p0 o (n + 1) ≤ smoothIter p0 o n ∧
      o - 1 ≤ smoothIter p0 o n ∧ smoothIter p0 o n ≤ p0) := by
  constructor
  · intro hpo n
    induction n with
    | zero =>
      exact ⟨((smooth_step_bounds p0 o hp ho).2.1 hpo).1, hpo⟩
    | succ n ih =>
      have hn60 : smoothIter p0 o n ≤ 61 := le_trans (le_of_lt ih.2) ho
      have hb := (smooth_step_bounds (smoothIter p0 o n) o hn60 ho).2.1 ih.2
      have hlt : smoothIter p0 o (n + 1) < o := hb.2
      have hn60b : smoothIter p0 o (n + 1) ≤ 61 := le_trans (le_of_lt hlt) ho
      exact ⟨((smooth_step_bounds (smoothIter p0 o (n + 1)) o hn60b ho).2.1 hlt).1, hlt⟩
  · intro hop
    have step2 : ∀ x : ℕ, x ≤ 61 → o - 1 ≤ x →
        o - 1 ≤ smoothFloat x o ∧ smoothFloat x o ≤ x := by
      intro x hx hxo
      by_cases hc : o ≤ x
      · exact (smooth_step_bounds x o hx ho).2.2 hc
      · have hb := (smooth_step_bounds x o hx ho).2.1 (by omega)
        exact ⟨by omega, by omega⟩
    have inv : ∀ n : ℕ, o - 1 ≤ smoothIter p0 o n ∧ smoothIter p0 o n ≤ p0 := by
      intro n
      induction n with
      | zero =>
        refine ⟨?_, le_refl p0⟩
        show o - 1 ≤ p0
        omega
      | succ n ih =>
        have hx : smoothIter p0 o n ≤ 61 := le_trans ih.2 hp
        have hs := step2 (smoothIter p0 o n) hx ih.1
        exact ⟨hs.1, le_trans hs.2 ih.2⟩
    intro n
    have hx : smoothIter p0 o n ≤ 61 := le_trans (inv n).2 hp
    exact ⟨(step2 (smoothIter p0 o n) hx (inv n).1).2, (inv n).1, (inv n).2⟩

/-- Witness for C6 amended: from 0 under constant observed input 3 the
first step is non-decreasing and stays below 3, and from 20 under
constant observed input 3 the first step is non-increasing and stays
between 2 and 20. -/
theorem claim_C6_witness :
    (smoothIter 0 3 0 ≤ smoothIter 0 3 1 ∧ smoothIter 0 3 0 < 3) ∧
    (smoothIter 20 3 1 ≤ smoothIter 20 3 0 ∧
      3 - 1 ≤ smoothIter 20 3 0 ∧ smoothIter 20 3 0 ≤ 20) :=
  ⟨(claim_C6_convergence_amended 0 3 (by decide) (by decide)).1 (by decide) 0,
   (claim_C6_convergence_amended 20 3 (by decide) (by decide)).2 (by decide) 0⟩

end TrafficControl
